import Mathlib

/-!
Verification of the HTTP bootstrap core (`lib/server.js`): CORS policy
construction (`corsOrigins` / the `cors` options object), the
`prettyPrintErrors` response hook, and the bootstrap orchestration exported
by the module (plugin registration, post-registration wiring of token
generators, conditional shutdown-task registration, listener start).

JavaScript values that the code inspects dynamically (with `Array.isArray`,
truthiness tests such as `if (err.data)`, …) are embedded as the inductive
type `JsVal`.  Effects (log records, calls on the auth capability, calls on
external collaborators) are reified as explicit traces returned next to the
pure result.
-/

/-- A dynamically-typed JavaScript value, as far as `lib/server.js` inspects
one: `undefined`, `null`, booleans, (integer) numbers, strings, arrays and
plain objects. -/
inductive JsVal where
  | vUndefined
  | vNull
  | vBool (b : Bool)
  | vNum (n : Int)
  | vStr (s : String)
  | vArr (elems : List JsVal)
  | vObj (fields : List (String × JsVal))

/-- JavaScript truthiness of a value: `undefined`, `null`, `false`, `0` and
the empty string are falsy; every array and object is truthy. -/
def jsTruthy : JsVal → Bool
  | .vUndefined => false
  | .vNull => false
  | .vBool b => b
  | .vNum n => n != 0
  | .vStr s => s != ""
  | .vArr _ => true
  | .vObj _ => true

/-- `Array.isArray` on the embedded values. -/
def isArray : JsVal → Bool
  | .vArr _ => true
  | _ => false

/-- Truthiness of a possibly-absent attribute: an absent attribute reads as
`undefined`, which is falsy. -/
def optTruthy : Option JsVal → Bool
  | none => false
  | some v => jsTruthy v

/-- `config.ecosystem`: the UI origin plus the optional `allowCors` value,
which the code only uses when it is recognizably an array. -/
structure Ecosystem where
  ui : String
  allowCors : JsVal

/-- The `corsOrigins` computation:
`let corsOrigins = [config.ecosystem.ui];`
`if (Array.isArray(config.ecosystem.allowCors)) corsOrigins = corsOrigins.concat(config.ecosystem.allowCors);`. -/
def corsOrigins (eco : Ecosystem) : List JsVal :=
  let origins := [JsVal.vStr eco.ui]
  match eco.allowCors with
  | .vArr extras => origins ++ extras
  | _ => origins

/-- The `cors` options object handed to the Hapi connection routes. -/
structure CorsPolicy where
  origin : List JsVal
  additionalExposedHeaders : List String
  credentials : Bool

/-- The `cors` constant built in `module.exports`. -/
def cors (eco : Ecosystem) : CorsPolicy :=
  { origin := corsOrigins eco
    additionalExposedHeaders := ["x-more-data"]
    credentials := true }

/-- The slice of a Boom error's `output.payload` that `prettyPrintErrors`
reads (`error`, `statusCode`), plus the payload's own `message`, which the
hook never reads (it uses the error's top-level `message` instead). -/
structure BoomOutput where
  payloadError : String
  payloadStatusCode : Int
  payloadMessage : String

/-- A Boom failure carried by `request.response`: top-level `message`, the
structured `output` payload, an optional `stack` string, and a possibly
absent `data` attribute. -/
structure BoomError where
  message : String
  output : BoomOutput
  stack : Option String
  data : Option JsVal

/-- `request.response`: either a Boom failure or an ordinary response. -/
inductive ResponseState where
  | boom (err : BoomError)
  | normal

/-- A record emitted through `request.log(tags, detail)`. -/
structure LogRecord where
  tags : List String
  detail : String

/-- The normalized error body `{ statusCode, error, message }` with the
`data` key present (`some`) or absent (`none`). -/
structure NormalizedBody where
  statusCode : Int
  error : String
  message : String
  data : Option JsVal

/-- The hook's outcome: `reply(response).code(statusCode)` or
`reply.continue()`. -/
inductive PrettyResult where
  | reply (body : NormalizedBody) (code : Int)
  | continueResponse

/-- The `prettyPrintErrors` response hook, returning its outcome together
with the list of log records it emitted via `request.log`. -/
def prettyPrintErrors (response : ResponseState) : PrettyResult × List LogRecord :=
  match response with
  | .boom err =>
    let errName := err.output.payloadError
    let errMessage := err.message
    let statusCode := err.output.payloadStatusCode
    let stack := match err.stack with
      | some s => if s = "" then errMessage else s
      | none => errMessage
    let logs := if statusCode = 500 then [LogRecord.mk ["server", "error"] stack] else []
    let body : NormalizedBody :=
      { statusCode := statusCode, error := errName, message := errMessage, data := none }
    let body := if optTruthy err.data then { body with data := err.data } else body
    (.reply body statusCode, logs)
  | .normal => (.continueResponse, [])

/-- The body of a `reply` outcome, if any. -/
def prettyResultBody : PrettyResult → Option NormalizedBody
  | .reply body _ => some body
  | .continueResponse => none

/-- The `server.plugins.auth` capability installed by plugin registration:
`generateProfile(subjectId, scmContext, scopes, metadata)` and
`generateToken(profile, expiresIn?)`, embedded as pure oracles over `JsVal`
profiles and tokens. -/
structure Auth where
  generateProfile : String → String → List String → JsVal → JsVal
  generateToken : JsVal → Option Int → JsVal

/-- One call made on the auth capability, recorded in order. -/
inductive AuthCall where
  | genProfile (subjectId : String) (scmContext : String) (scopes : List String) (metadata : JsVal)
  | genToken (profile : JsVal) (expiresIn : Option Int)

/-- The closure assigned to `server.app.buildFactory.tokenGen`:
`(buildId, metadata, scmContext, expiresIn) =>
  auth.generateToken(auth.generateProfile(buildId, scmContext, ['temporal'], metadata), expiresIn)`;
it returns the token together with the trace of auth calls it made. -/
def buildTokenGen (auth : Auth) (buildId : String) (metadata : JsVal) (scmContext : String)
    (expiresIn : Option Int) : JsVal × List AuthCall :=
  let profile := auth.generateProfile buildId scmContext ["temporal"] metadata
  (auth.generateToken profile expiresIn,
   [AuthCall.genProfile buildId scmContext ["temporal"] metadata,
    AuthCall.genToken profile expiresIn])

/-- The closure assigned to `server.app.jobFactory.tokenGen`:
`(username, metadata, scmContext) =>
  auth.generateToken(auth.generateProfile(username, scmContext, ['user'], metadata))`;
`generateToken` is called with no expiry argument, i.e. `none`. -/
def jobTokenGen (auth : Auth) (username : String) (metadata : JsVal) (scmContext : String) :
    JsVal × List AuthCall :=
  let profile := auth.generateProfile username scmContext ["user"] metadata
  (auth.generateToken profile none,
   [AuthCall.genProfile username scmContext ["user"] metadata,
    AuthCall.genToken profile none])

/-- The slots this core touches on `buildFactory.executor`. -/
structure BuildExecutor where
  tokenGen : Option (String → JsVal → String → Option Int → JsVal × List AuthCall)

/-- The slots this core touches on the build-domain factory. -/
structure BuildFactoryState where
  apiUri : Option String
  tokenGen : Option (String → JsVal → String → Option Int → JsVal × List AuthCall)
  executor : BuildExecutor

/-- The slots this core touches on `jobFactory.executor`. -/
structure JobExecutor where
  userTokenGen : Option (String → JsVal → String → JsVal × List AuthCall)

/-- The slots this core touches on the job-domain factory. -/
structure JobFactoryState where
  apiUri : Option String
  tokenGen : Option (String → JsVal → String → JsVal × List AuthCall)
  executor : JobExecutor

/-- What happens inside the shutdown task's action when it runs: it awaits
`jobFactory.cleanUp()`, then logs an informational message. -/
inductive TaskEvent where
  | cleanUpCalled
  | logInfo (msg : String)

/-- A task handed to `server.plugins.shutdown.handler`: its `taskname` and
the event trace its `task` action produces when invoked. -/
structure RegisteredTask where
  taskname : String
  taskTrace : List TaskEvent

/-- The `server.plugins` namespace after registration: the auth capability,
and the shutdown-coordination capability when present (`some`) or absent
(`none`). -/
structure Plugins where
  auth : Auth
  shutdown : Option Unit

/-- The input configuration slice the claims touch: the ecosystem settings
and the externally-constructed factory handles whose slots get wired. -/
structure Config where
  ecosystem : Ecosystem
  buildFactory : BuildFactoryState
  jobFactory : JobFactoryState

/-- Behavior of the external collaborators during one bootstrap run:
how `registrationMan(server, config)` settles, the plugins it installs,
how `server.start()` settles, and `server.info.uri`. -/
structure BootEnv where
  registerResult : Except JsVal Unit
  plugins : Plugins
  startResult : Except JsVal Unit
  serverUri : String

/-- The wired server visible after a successful registration stage: its
CORS policy and its two factories with `apiUri`, `tokenGen` and the
executor slots assigned exactly as the `.then` callback does. -/
structure ServerState where
  corsPolicy : CorsPolicy
  buildFactory : BuildFactoryState
  jobFactory : JobFactoryState

/-- The post-registration wiring of `module.exports`: record `apiUri` on
both factories, install `buildTokenGen`/`jobTokenGen` closures, and copy
each onto its factory's executor (`executor.tokenGen`,
`executor.userTokenGen`). -/
def makeServer (config : Config) (env : BootEnv) : ServerState :=
  let bTok := buildTokenGen env.plugins.auth
  let jTok := jobTokenGen env.plugins.auth
  { corsPolicy := cors config.ecosystem
    buildFactory :=
      { config.buildFactory with
          apiUri := some env.serverUri
          tokenGen := some bTok
          executor := { config.buildFactory.executor with tokenGen := some bTok } }
    jobFactory :=
      { config.jobFactory with
          apiUri := some env.serverUri
          tokenGen := some jTok
          executor := { config.jobFactory.executor with userTokenGen := some jTok } } }

/-- The conditional shutdown-task registration:
`if (server.plugins.shutdown) server.plugins.shutdown.handler({taskname: 'executor-queue-cleanup', task: ...})`.
The task's action awaits `jobFactory.cleanUp()`, then logs
`'completed clean up tasks'`, then resolves. -/
def registerShutdownTasks (plugins : Plugins) : List RegisteredTask :=
  match plugins.shutdown with
  | some _ =>
    [{ taskname := "executor-queue-cleanup"
       taskTrace := [TaskEvent.cleanUpCalled, TaskEvent.logInfo "completed clean up tasks"] }]
  | none => []

/-- How one bootstrap run settles, plus its observable effects: how often
`server.start()` was invoked, what `logger.error` recorded, which tasks
were handed to the shutdown coordinator, and the wired server object
(which exists once registration succeeded, whether or not start worked). -/
structure BootOutcome where
  result : Except JsVal (Option ServerState)
  startCalls : Nat
  errorLogs : List (String × JsVal)
  registeredTasks : List RegisteredTask
  server : Option ServerState

/-- The exported bootstrap:
`registrationMan(server, config).then(() => { wiring; return server.start().then(() => server).catch(err => logger.error('Failed to start server', err)); })`.
A registration rejection propagates unchanged and `server.start` is never
reached; a start rejection is caught, logged, and the promise resolves to
`undefined` (`.ok none`) — `logger.error`'s return value is modelled as
`undefined`, matching the documented contract of the external logger. -/
def bootstrap (config : Config) (env : BootEnv) : BootOutcome :=
  match env.registerResult with
  | .error e =>
    { result := .error e, startCalls := 0, errorLogs := [], registeredTasks := [], server := none }
  | .ok _ =>
    let srv := makeServer config env
    let tasks := registerShutdownTasks env.plugins
    match env.startResult with
    | .ok _ =>
      { result := .ok (some srv), startCalls := 1, errorLogs := [], registeredTasks := tasks,
        server := some srv }
    | .error e =>
      { result := .ok none, startCalls := 1, errorLogs := [("Failed to start server", e)],
        registeredTasks := tasks, server := some srv }

/-! Concrete fixtures used to instantiate the theorems below. -/

/-- A concrete auth oracle: the profile records its inputs, the token
records the profile and the expiry. -/
def authFix : Auth :=
  { generateProfile := fun subjectId scmContext scopes metadata =>
      JsVal.vObj [("username", .vStr subjectId), ("scmContext", .vStr scmContext),
                  ("scope", .vArr (scopes.map JsVal.vStr)), ("metadata", metadata)]
    generateToken := fun profile expiresIn =>
      JsVal.vObj [("profile", profile),
                  ("expiresIn", match expiresIn with
                                | some n => JsVal.vNum n
                                | none => JsVal.vUndefined)] }

/-- A build factory with nothing wired yet. -/
def blankBuildFactory : BuildFactoryState :=
  { apiUri := none, tokenGen := none, executor := { tokenGen := none } }

/-- A job factory with nothing wired yet. -/
def blankJobFactory : JobFactoryState :=
  { apiUri := none, tokenGen := none, executor := { userTokenGen := none } }

/-- A concrete configuration: UI origin only, no extra CORS origins. -/
def cfgFix : Config :=
  { ecosystem := { ui := "https://ui.example", allowCors := JsVal.vUndefined }
    buildFactory := blankBuildFactory
    jobFactory := blankJobFactory }

/-- A run where plugin registration rejects with `Error("install failed")`. -/
def envRegFail : BootEnv :=
  { registerResult := .error (JsVal.vStr "install failed")
    plugins := { auth := authFix, shutdown := none }
    startResult := .ok ()
    serverUri := "http://localhost:80" }

/-- A run where registration succeeds but `server.start()` rejects. -/
def envStartFail : BootEnv :=
  { registerResult := .ok ()
    plugins := { auth := authFix, shutdown := none }
    startResult := .error (JsVal.vStr "bind failed")
    serverUri := "http://localhost:80" }

/-- A fully successful run with the shutdown capability installed. -/
def envOk : BootEnv :=
  { registerResult := .ok ()
    plugins := { auth := authFix, shutdown := some () }
    startResult := .ok ()
    serverUri := "http://localhost:80" }

/-- A Boom failure whose `data` attribute is present but falsy. -/
def falsyDataBoom : BoomError :=
  { message := "Internal Server Error"
    output := { payloadError := "Internal Server Error", payloadStatusCode := 500,
                payloadMessage := "Internal Server Error" }
    stack := some "stack trace"
    data := some (JsVal.vBool false) }

/-- A Boom failure whose top-level `message` differs from the message in
its `output.payload`. -/
def mismatchBoom : BoomError :=
  { message := "boom cause"
    output := { payloadError := "Not Found", payloadStatusCode := 404,
                payloadMessage := "Not Found" }
    stack := none
    data := none }

/-! The claims. -/

/-- Claim C5: for every ecosystem configuration in which the extra-origins
value is absent, an empty sequence, or not a sequence at all, the computed
CORS policy's origin set is exactly `[uiOrigin]`. -/
theorem corsOrigins_default (eco : Ecosystem)
    (h : isArray eco.allowCors = false ∨ eco.allowCors = JsVal.vArr []) :
    (cors eco).origin = [JsVal.vStr eco.ui] := by
  rcases h with h | h
  · unfold cors corsOrigins
    cases hv : eco.allowCors <;> simp_all [isArray]
  · simp [cors, corsOrigins, h]

/-- Witness for `corsOrigins_default` at a non-array extras value. -/
theorem corsOrigins_default_witness :
    (cors { ui := "https://ui.example", allowCors := JsVal.vNull }).origin =
      [JsVal.vStr "https://ui.example"] :=
  corsOrigins_default { ui := "https://ui.example", allowCors := JsVal.vNull } (Or.inl rfl)

/-- Claim C6: when the extra-origins value is a sequence `[o1, o2]`, the
computed origin set is `[uiOrigin, o1, o2]` in that order. -/
theorem corsOrigins_extras (eco : Ecosystem) (o1 o2 : JsVal)
    (h : eco.allowCors = JsVal.vArr [o1, o2]) :
    (cors eco).origin = [JsVal.vStr eco.ui, o1, o2] := by
  simp [cors, corsOrigins, h]

/-- Witness for `corsOrigins_extras` at two concrete extra origins. -/
theorem corsOrigins_extras_witness :
    (cors { ui := "https://ui.example",
            allowCors := JsVal.vArr [JsVal.vStr "https://a.example", JsVal.vStr "https://b.example"] }).origin =
      [JsVal.vStr "https://ui.example", JsVal.vStr "https://a.example", JsVal.vStr "https://b.example"] :=
  corsOrigins_extras
    { ui := "https://ui.example",
      allowCors := JsVal.vArr [JsVal.vStr "https://a.example", JsVal.vStr "https://b.example"] }
    (JsVal.vStr "https://a.example") (JsVal.vStr "https://b.example") rfl

/-- Claim C3: for every failure response, `prettyPrintErrors` emits exactly
one log record when the status code is 500 and zero log records otherwise. -/
theorem prettyPrintErrors_log_iff_500 (err : BoomError) :
    (prettyPrintErrors (ResponseState.boom err)).2.length =
      if err.output.payloadStatusCode = 500 then 1 else 0 := by
  by_cases h : err.output.payloadStatusCode = 500 <;>
    simp [prettyPrintErrors, h]

/-- Counterexample to claim C4 as stated: `falsyDataBoom` carries a `data`
attribute (the value `false`), yet the normalized body has no `data` key,
because the hook tests `if (err.data)` — truthiness, not presence. -/
theorem prettyPrintErrors_falsy_data_dropped :
    falsyDataBoom.data = some (JsVal.vBool false) ∧
    Option.map NormalizedBody.data
      (prettyResultBody (prettyPrintErrors (ResponseState.boom falsyDataBoom)).1) = some none :=
  ⟨rfl, rfl⟩

/-- Claim C4 (amended): for every failure response, the normalized body
always carries the payload's status code and error label and the failure's
top-level message, and it carries the `data` value unchanged exactly when
the `data` attribute is present with a truthy value; a present but falsy
`data` (false, 0, empty string, null) is omitted like an absent one. -/
theorem prettyPrintErrors_body_fields (err : BoomError) :
    prettyResultBody (prettyPrintErrors (ResponseState.boom err)).1 =
      some { statusCode := err.output.payloadStatusCode
             error := err.output.payloadError
             message := err.message
             data := if optTruthy err.data then err.data else none } := by
  by_cases h : optTruthy err.data <;>
    simp [prettyPrintErrors, prettyResultBody, h]

/-- Claim C10: the normalized body's `message` comes from the failure's
top-level `message` attribute, not from the payload's message; when the
two differ the top-level one is emitted, while the error label and status
code come from the payload. -/
theorem prettyPrintErrors_message_toplevel (err : BoomError)
    (h : err.output.payloadMessage ≠ err.message) :
    ∃ body code, (prettyPrintErrors (ResponseState.boom err)).1 = .reply body code ∧
      body.message = err.message ∧
      body.message ≠ err.output.payloadMessage ∧
      body.error = err.output.payloadError ∧
      body.statusCode = err.output.payloadStatusCode := by
  by_cases hd : optTruthy err.data
  · exact ⟨{ statusCode := err.output.payloadStatusCode, error := err.output.payloadError,
             message := err.message, data := err.data },
           err.output.payloadStatusCode,
           by simp [prettyPrintErrors, hd], rfl, Ne.symm h, rfl, rfl⟩
  · exact ⟨{ statusCode := err.output.payloadStatusCode, error := err.output.payloadError,
             message := err.message, data := none },
           err.output.payloadStatusCode,
           by simp [prettyPrintErrors, hd], rfl, Ne.symm h, rfl, rfl⟩

/-- Witness for `prettyPrintErrors_message_toplevel` at a failure whose two
messages differ. -/
theorem prettyPrintErrors_message_toplevel_witness :
    ∃ body code, (prettyPrintErrors (ResponseState.boom mismatchBoom)).1 = .reply body code ∧
      body.message = mismatchBoom.message ∧
      body.message ≠ mismatchBoom.output.payloadMessage ∧
      body.error = mismatchBoom.output.payloadError ∧
      body.statusCode = mismatchBoom.output.payloadStatusCode :=
  prettyPrintErrors_message_toplevel mismatchBoom (by decide)

/-- Claim C1: if plugin registration rejects with an error, the bootstrap
promise rejects with that same error and `server.start` is never invoked. -/
theorem bootstrap_registration_rejection (config : Config) (env : BootEnv) (e : JsVal)
    (h : env.registerResult = .error e) :
    (bootstrap config env).result = .error e ∧ (bootstrap config env).startCalls = 0 := by
  simp [bootstrap, h]

/-- Witness for `bootstrap_registration_rejection` on a run whose
registrar rejects with `Error("install failed")`. -/
theorem bootstrap_registration_rejection_witness :
    (bootstrap cfgFix envRegFail).result = .error (JsVal.vStr "install failed") ∧
    (bootstrap cfgFix envRegFail).startCalls = 0 :=
  bootstrap_registration_rejection cfgFix envRegFail (JsVal.vStr "install failed") rfl

/-- Claim C2: if registration succeeds but `server.start()` rejects, the
bootstrap promise does not reject: the start error is logged with the
fixed message and the promise resolves to `undefined` rather than to the
running server. -/
theorem bootstrap_start_failure_swallowed (config : Config) (env : BootEnv) (e : JsVal)
    (hr : env.registerResult = .ok ()) (hs : env.startResult = .error e) :
    (bootstrap config env).result = .ok none ∧
    (bootstrap config env).errorLogs = [("Failed to start server", e)] := by
  simp [bootstrap, hr, hs]

/-- Witness for `bootstrap_start_failure_swallowed` on a run whose start
operation rejects with `Error("bind failed")`. -/
theorem bootstrap_start_failure_swallowed_witness :
    (bootstrap cfgFix envStartFail).result = .ok none ∧
    (bootstrap cfgFix envStartFail).errorLogs = [("Failed to start server", JsVal.vStr "bind failed")] :=
  bootstrap_start_failure_swallowed cfgFix envStartFail (JsVal.vStr "bind failed") rfl rfl

/-- Claim C7: after successful registration, the closure installed as the
build factory's `tokenGen`, invoked with `(buildId, metadata, scmContext, expiresIn)`,
calls `generateProfile` with that buildId, that scmContext, scopes exactly
`["temporal"]` and that metadata, then calls `generateToken` with the
resulting profile and the given expiry, and returns its result; the same
closure is installed as the build executor's `tokenGen`. -/
theorem bootstrap_build_tokenGen (config : Config) (env : BootEnv)
    (buildId : String) (metadata : JsVal) (scmContext : String) (expiresIn : Option Int)
    (h : env.registerResult = .ok ()) :
    (bootstrap config env).server = some (makeServer config env) ∧
    (makeServer config env).buildFactory.tokenGen = some (buildTokenGen env.plugins.auth) ∧
    (makeServer config env).buildFactory.executor.tokenGen =
      (makeServer config env).buildFactory.tokenGen ∧
    buildTokenGen env.plugins.auth buildId metadata scmContext expiresIn =
      (env.plugins.auth.generateToken
         (env.plugins.auth.generateProfile buildId scmContext ["temporal"] metadata) expiresIn,
       [AuthCall.genProfile buildId scmContext ["temporal"] metadata,
        AuthCall.genToken
          (env.plugins.auth.generateProfile buildId scmContext ["temporal"] metadata)
          expiresIn]) := by
  refine ⟨?_, rfl, rfl, rfl⟩
  cases hs : env.startResult <;> simp [bootstrap, h, hs]

/-- Witness for `bootstrap_build_tokenGen`, matching Scenario E:
`(buildId="b1", metadata={}, scmContext="gh", expiresIn=3600)`. -/
theorem bootstrap_build_tokenGen_witness :
    (bootstrap cfgFix envOk).server = some (makeServer cfgFix envOk) ∧
    (makeServer cfgFix envOk).buildFactory.tokenGen = some (buildTokenGen envOk.plugins.auth) ∧
    (makeServer cfgFix envOk).buildFactory.executor.tokenGen =
      (makeServer cfgFix envOk).buildFactory.tokenGen ∧
    buildTokenGen envOk.plugins.auth "b1" (JsVal.vObj []) "gh" (some 3600) =
      (envOk.plugins.auth.generateToken
         (envOk.plugins.auth.generateProfile "b1" "gh" ["temporal"] (JsVal.vObj [])) (some 3600),
       [AuthCall.genProfile "b1" "gh" ["temporal"] (JsVal.vObj []),
        AuthCall.genToken
          (envOk.plugins.auth.generateProfile "b1" "gh" ["temporal"] (JsVal.vObj []))
          (some 3600)]) :=
  bootstrap_build_tokenGen cfgFix envOk "b1" (JsVal.vObj []) "gh" (some 3600) rfl

/-- Claim C8: after successful registration, the closure installed as the
job factory's `tokenGen`, invoked with `(username, metadata, scmContext)`,
calls `generateProfile` with scopes exactly `["user"]` and calls
`generateToken` on the resulting profile with no expiry argument; the same
closure is installed as the job executor's `userTokenGen`. -/
theorem bootstrap_job_tokenGen (config : Config) (env : BootEnv)
    (username : String) (metadata : JsVal) (scmContext : String)
    (h : env.registerResult = .ok ()) :
    (bootstrap config env).server = some (makeServer config env) ∧
    (makeServer config env).jobFactory.tokenGen = some (jobTokenGen env.plugins.auth) ∧
    (makeServer config env).jobFactory.executor.userTokenGen =
      (makeServer config env).jobFactory.tokenGen ∧
    jobTokenGen env.plugins.auth username metadata scmContext =
      (env.plugins.auth.generateToken
         (env.plugins.auth.generateProfile username scmContext ["user"] metadata) none,
       [AuthCall.genProfile username scmContext ["user"] metadata,
        AuthCall.genToken
          (env.plugins.auth.generateProfile username scmContext ["user"] metadata) none]) := by
  refine ⟨?_, rfl, rfl, rfl⟩
  cases hs : env.startResult <;> simp [bootstrap, h, hs]

/-- Witness for `bootstrap_job_tokenGen` at
`(username="alice", metadata={}, scmContext="gh")`. -/
theorem bootstrap_job_tokenGen_witness :
    (bootstrap cfgFix envOk).server = some (makeServer cfgFix envOk) ∧
    (makeServer cfgFix envOk).jobFactory.tokenGen = some (jobTokenGen envOk.plugins.auth) ∧
    (makeServer cfgFix envOk).jobFactory.executor.userTokenGen =
      (makeServer cfgFix envOk).jobFactory.tokenGen ∧
    jobTokenGen envOk.plugins.auth "alice" (JsVal.vObj []) "gh" =
      (envOk.plugins.auth.generateToken
         (envOk.plugins.auth.generateProfile "alice" "gh" ["user"] (JsVal.vObj [])) none,
       [AuthCall.genProfile "alice" "gh" ["user"] (JsVal.vObj []),
        AuthCall.genToken
          (envOk.plugins.auth.generateProfile "alice" "gh" ["user"] (JsVal.vObj [])) none]) :=
  bootstrap_job_tokenGen cfgFix envOk "alice" (JsVal.vObj []) "gh" rfl

/-- Claim C9: after successful registration, the shutdown task named
`executor-queue-cleanup` — whose action awaits the job factory's
`cleanUp()`, then logs the informational completion message, then
resolves — is registered exactly when the shutdown-coordination capability
is present; when it is absent, nothing is registered and no error occurs. -/
theorem bootstrap_shutdown_task (config : Config) (env : BootEnv)
    (h : env.registerResult = .ok ()) :
    (env.plugins.shutdown.isSome →
      (bootstrap config env).registeredTasks =
        [{ taskname := "executor-queue-cleanup"
           taskTrace := [TaskEvent.cleanUpCalled, TaskEvent.logInfo "completed clean up tasks"] }]) ∧
    (env.plugins.shutdown = none → (bootstrap config env).registeredTasks = []) := by
  constructor
  · intro hp
    obtain ⟨u, hu⟩ := Option.isSome_iff_exists.mp hp
    cases hs : env.startResult <;> simp [bootstrap, h, hs, registerShutdownTasks, hu]
  · intro hp
    cases hs : env.startResult <;> simp [bootstrap, h, hs, registerShutdownTasks, hp]

/-- Witness for `bootstrap_shutdown_task` on a run with the shutdown
capability installed. -/
theorem bootstrap_shutdown_task_witness :
    (envOk.plugins.shutdown.isSome →
      (bootstrap cfgFix envOk).registeredTasks =
        [{ taskname := "executor-queue-cleanup"
           taskTrace := [TaskEvent.cleanUpCalled, TaskEvent.logInfo "completed clean up tasks"] }]) ∧
    (envOk.plugins.shutdown = none → (bootstrap cfgFix envOk).registeredTasks = []) :=
  bootstrap_shutdown_task cfgFix envOk rfl
